import Mathlib

/-!
Shallow embedding of `topology_lib_ntpd/library.py`, a remote-control
helper for the NTP daemon.  Each Python function formats a shell command
string and sends it through the engine-node channel; preconditions are
Python `assert` statements and the start/stop operations assert on the
captured output.  We model each operation as a pure function returning the
list of commands sent on the channel together with an optional error
(`PreconditionViolation` for a failed `assert` on the arguments,
`VerificationFailure` for a failed `assert` on the output).  The key-file
round-trip claim additionally needs a simulated file: a list of lines, with
`echo "L" >> f` appending a line and `sed -i '/PAT/d' f` deleting every
line that contains a match of PAT.
-/

namespace Ntpd

/-- `CONFIG_FILE = '/etc/ntp.conf'` from the source. -/
def CONFIG_FILE : String := "/etc/ntp.conf"

/-- `KEYS_FILE = '/etc/ntp.keys'` from the source. -/
def KEYS_FILE : String := "/etc/ntp.keys"

/-- The two error kinds of the library: a failed argument `assert`
(precondition) and a failed output `assert` (verification). -/
inductive NtpdError where
  | PreconditionViolation
  | VerificationFailure
deriving DecidableEq, Repr

/-- Observable behaviour of one library call: the commands sent on the
engine-node channel, in order, and the outcome (`none` = normal return). -/
structure CallResult where
  sent : List String
  err : Option NtpdError
deriving DecidableEq, Repr

/-- Python's substring test `pat in s`. -/
def containsSubstr (s pat : String) : Bool :=
  s.data.tails.any (fun t => pat.data.isPrefixOf t)

/-- `ntpd_stop(enode)`: sends `/etc/init.d/ntp stop`, then asserts that the
captured output contains `done`.  `output` is what the channel returns. -/
def ntpd_stop (output : String) : CallResult :=
  let cmd := "/etc/init.d/ntp stop"
  { sent := [cmd],
    err := if containsSubstr output "done" then none
           else some .VerificationFailure }

/-- `ntpd_start(enode)`: sends `/etc/init.d/ntp start`, then asserts that
the captured output contains `done`. -/
def ntpd_start (output : String) : CallResult :=
  let cmd := "/etc/init.d/ntp start"
  { sent := [cmd],
    err := if containsSubstr output "done" then none
           else some .VerificationFailure }

/-- `add_ntp_server(enode, server)`: `assert server`, then sends
`echo "server <server>" >> /etc/ntp.conf`. -/
def add_ntp_server (server : String) : CallResult :=
  if server.isEmpty then { sent := [], err := some .PreconditionViolation }
  else { sent := ["echo \"server " ++ server ++ "\" >> " ++ CONFIG_FILE],
         err := none }

/-- `remove_ntp_server(enode, server)`: `assert server`, then sends
`sed -i '/<server>/d' /etc/ntp.conf`. -/
def remove_ntp_server (server : String) : CallResult :=
  if server.isEmpty then { sent := [], err := some .PreconditionViolation }
  else { sent := ["sed -i '/" ++ server ++ "/d' " ++ CONFIG_FILE],
         err := none }

/-- `assert trustedkey_id > 0 and trustedkey_id < 65535` from the source. -/
def idInRange (trustedkey_id : Int) : Prop :=
  0 < trustedkey_id ∧ trustedkey_id < 65535

instance (trustedkey_id : Int) : Decidable (idInRange trustedkey_id) :=
  inferInstanceAs (Decidable (_ ∧ _))

/-- `add_trustedkey(enode, trustedkey_id)`: range assert, then sends
`echo "trustedkey <id>" >> /etc/ntp.conf`. -/
def add_trustedkey (trustedkey_id : Int) : CallResult :=
  if idInRange trustedkey_id then
    { sent := ["echo \"trustedkey " ++ toString trustedkey_id ++ "\" >> "
                 ++ CONFIG_FILE],
      err := none }
  else { sent := [], err := some .PreconditionViolation }

/-- `remove_trustedkey(enode, trustedkey_id)`: range assert, then sends
`sed -i '/trustedkey <id>/d' /etc/ntp.conf`. -/
def remove_trustedkey (trustedkey_id : Int) : CallResult :=
  if idInRange trustedkey_id then
    { sent := ["sed -i '/trustedkey " ++ toString trustedkey_id ++ "/d' "
                 ++ CONFIG_FILE],
      err := none }
  else { sent := [], err := some .PreconditionViolation }

/-- The key-file line `"{trustedkey_id} {type} {key}"` formatted by
`add_trustedkey_password`. -/
def keyFileLine (trustedkey_id : Int) (type key : String) : String :=
  toString trustedkey_id ++ " " ++ type ++ " " ++ key

/-- `add_trustedkey_password(enode, trustedkey_id, key, type='M')`: range
assert, `assert key`, then sends
`echo "<id> <type> <key>" >> /etc/ntp.keys`. -/
def add_trustedkey_password (trustedkey_id : Int) (key : String)
    (type : String := "M") : CallResult :=
  if idInRange trustedkey_id then
    if key.isEmpty then { sent := [], err := some .PreconditionViolation }
    else { sent := ["echo \"" ++ keyFileLine trustedkey_id type key
                      ++ "\" >> " ++ KEYS_FILE],
           err := none }
  else { sent := [], err := some .PreconditionViolation }

/-- `remove_trustedkey_password(enode, trustedkey_id)`: range assert, then
sends `sed -i '/<id>[[:space:]]/d' /etc/ntp.keys`. -/
def remove_trustedkey_password (trustedkey_id : Int) : CallResult :=
  if idInRange trustedkey_id then
    { sent := ["sed -i '/" ++ toString trustedkey_id ++ "[[:space:]]/d' "
                 ++ KEYS_FILE],
      err := none }
  else { sent := [], err := some .PreconditionViolation }

/-- `ntpd_config_files(enode, keyfile=False, trustedkey_id=None)`: builds
`ntpd -c /etc/ntp.conf`; when `keyfile`, asserts the id is not `None` and
appends ` -k /etc/ntp.keys -t <id>`; then sends the command. -/
def ntpd_config_files (keyfile : Bool := false)
    (trustedkey_id : Option Int := none) : CallResult :=
  let cmd := "ntpd -c " ++ CONFIG_FILE
  if keyfile then
    match trustedkey_id with
    | none => { sent := [], err := some .PreconditionViolation }
    | some id =>
        { sent := [cmd ++ " -k " ++ KEYS_FILE ++ " -t " ++ toString id],
          err := none }
  else { sent := [cmd], err := none }

/-! ### Simulated remote file semantics

The library mutates the remote files only through `echo "L" >> f` (append
the line `L`) and `sed -i '/PAT/d' f` (delete every line containing a match
of `PAT`).  The patterns the library emits are a literal string, optionally
followed by the POSIX class `[[:space:]]`. -/

/-- The POSIX `[[:space:]]` character class. -/
def isPosixSpace (c : Char) : Bool :=
  c = ' ' || c = '\t' || c = '\n' || c = '\x0d' || c = '\x0b' || c = '\x0c'

/-- A line matches the unanchored sed regex `<pat>[[:space:]]` iff somewhere
in the line the literal `pat` occurs immediately followed by a whitespace
character. -/
def matchesPatSpace (pat line : String) : Bool :=
  line.data.tails.any fun t =>
    pat.data.isPrefixOf t &&
      (match t.drop pat.data.length with
       | c :: _ => isPosixSpace c
       | [] => false)

/-- Semantics of `echo "line" >> file` on a simulated file. -/
def echoAppend (file : List String) (line : String) : List String :=
  file ++ [line]

/-- Semantics of `sed -i '/PAT/d' file`: delete every line containing a
match of the pattern. -/
def sedDelete (matchesPat : String → Bool) (file : List String) :
    List String :=
  file.filter (fun l => !(matchesPat l))

/-- Effect on the simulated key file of the command
`echo "<id> <type> <key>" >> /etc/ntp.keys` sent by
`add_trustedkey_password`. -/
def applyAddTrustedkeyPassword (file : List String) (trustedkey_id : Int)
    (key : String) (type : String := "M") : List String :=
  echoAppend file (keyFileLine trustedkey_id type key)

/-- Effect on the simulated key file of the command
`sed -i '/<id>[[:space:]]/d' /etc/ntp.keys` sent by
`remove_trustedkey_password`. -/
def applyRemoveTrustedkeyPassword (file : List String)
    (trustedkey_id : Int) : List String :=
  sedDelete (matchesPatSpace (toString trustedkey_id)) file

end Ntpd

namespace Ntpd

/-! ### Claims -/

/-- C1: the round trip add-password(5, "secret", "M") then
remove-password(5) on a simulated key file does leave no line starting with
`5 `, but the sed pattern `5[[:space:]]` the code sends is not left-anchored:
evaluated on the key file `["55 M other"]`, the removal also deletes the
pre-existing line `55 M other`, contradicting the claimed boundary-anchored
survival. -/
theorem c1_roundtrip_deletes_unrelated_line :
    (applyRemoveTrustedkeyPassword
       (applyAddTrustedkeyPassword ["55 M other"] 5 "secret" "M") 5 = []) ∧
    "55 M other" ∉ applyRemoveTrustedkeyPassword
       (applyAddTrustedkeyPassword ["55 M other"] 5 "secret" "M") 5 := by
  decide

/-- C2 counterexample: `ntpd_config_files` given the out-of-range key id 0
does not abort: it sends a command and returns normally, so not every
key-related operation given a key id enforces `0 < id < 65535`. -/
theorem c2_config_files_accepts_out_of_range :
    ntpd_config_files true (some 0) =
      ⟨["ntpd -c /etc/ntp.conf -k /etc/ntp.keys -t 0"], none⟩ := by
  decide

/-- C2 amended: the four trusted-key operations enforce `0 < id < 65535`
and abort before sending any command when it fails, but
`ntpd_config_files` only requires the id to be present: with the key file
enabled it sends its command even for an out-of-range id. -/
theorem c2_range_enforcement (id : Int) (key type : String)
    (h : ¬ idInRange id) :
    add_trustedkey id = ⟨[], some .PreconditionViolation⟩ ∧
    remove_trustedkey id = ⟨[], some .PreconditionViolation⟩ ∧
    add_trustedkey_password id key type =
      ⟨[], some .PreconditionViolation⟩ ∧
    remove_trustedkey_password id = ⟨[], some .PreconditionViolation⟩ ∧
    (ntpd_config_files true (some id)).err = none ∧
    (ntpd_config_files true (some id)).sent ≠ [] := by
  simp [add_trustedkey, remove_trustedkey, add_trustedkey_password,
    remove_trustedkey_password, ntpd_config_files, h]

/-- C2 witness: intantiating the amended claim at the out-of-range id 0. -/
theorem c2_range_enforcement_witness :
    add_trustedkey 0 = ⟨[], some .PreconditionViolation⟩ ∧
    remove_trustedkey 0 = ⟨[], some .PreconditionViolation⟩ ∧
    add_trustedkey_password 0 "secret" "M" =
      ⟨[], some .PreconditionViolation⟩ ∧
    remove_trustedkey_password 0 = ⟨[], some .PreconditionViolation⟩ ∧
    (ntpd_config_files true (some 0)).err = none ∧
    (ntpd_config_files true (some 0)).sent ≠ [] :=
  c2_range_enforcement 0 "secret" "M" (by decide)

/-- C3: for every id with `id ≤ 0` or `id ≥ 65535`, each of the four
trusted-key operations raises a precondition violation and sends no
command on the channel. -/
theorem c3_out_of_range_rejected (id : Int) (key type : String)
    (h : id ≤ 0 ∨ 65535 ≤ id) :
    add_trustedkey id = ⟨[], some .PreconditionViolation⟩ ∧
    remove_trustedkey id = ⟨[], some .PreconditionViolation⟩ ∧
    add_trustedkey_password id key type =
      ⟨[], some .PreconditionViolation⟩ ∧
    remove_trustedkey_password id = ⟨[], some .PreconditionViolation⟩ := by
  have hn : ¬ idInRange id := by unfold idInRange; omega
  simp [add_trustedkey, remove_trustedkey, add_trustedkey_password,
    remove_trustedkey_password, hn]

/-- C3 witness: the four operations rejecting the out-of-range id 65535. -/
theorem c3_out_of_range_rejected_witness :
    add_trustedkey 65535 = ⟨[], some .PreconditionViolation⟩ ∧
    remove_trustedkey 65535 = ⟨[], some .PreconditionViolation⟩ ∧
    add_trustedkey_password 65535 "secret" "M" =
      ⟨[], some .PreconditionViolation⟩ ∧
    remove_trustedkey_password 65535 = ⟨[], some .PreconditionViolation⟩ :=
  c3_out_of_range_rejected 65535 "secret" "M" (Or.inr (by decide))

/-- C4: for every channel output, `ntpd_start` and `ntpd_stop` raise a
verification failure exactly when the output does not contain `done`,
return normally exactly when it does, and in particular
`Starting ntpd... done` is accepted. -/
theorem c4_done_marker (output : String) :
    ((ntpd_start output).err = some .VerificationFailure ↔
       containsSubstr output "done" = false) ∧
    ((ntpd_stop output).err = some .VerificationFailure ↔
       containsSubstr output "done" = false) ∧
    ((ntpd_start output).err = none ↔
       containsSubstr output "done" = true) ∧
    ((ntpd_stop output).err = none ↔
       containsSubstr output "done" = true) ∧
    (ntpd_start "Starting ntpd... done").err = none := by
  refine ⟨?_, ?_, ?_, ?_, by decide⟩ <;>
    cases hb : containsSubstr output "done" <;>
      simp [ntpd_start, ntpd_stop, hb]

/-- C5: with the key file disabled, `ntpd_config_files` sends exactly
`ntpd -c /etc/ntp.conf` whatever the key id is, and with the key file
enabled and id 7 it sends exactly
`ntpd -c /etc/ntp.conf -k /etc/ntp.keys -t 7`. -/
theorem c5_config_files_commands (trustedkey_id : Option Int) :
    ntpd_config_files false trustedkey_id =
      ⟨["ntpd -c /etc/ntp.conf"], none⟩ ∧
    ntpd_config_files true (some 7) =
      ⟨["ntpd -c /etc/ntp.conf -k /etc/ntp.keys -t 7"], none⟩ :=
  ⟨rfl, rfl⟩

/-- C6: `ntpd_config_files` with the key file enabled and no key id raises
a precondition violation before sending any command. -/
theorem c6_keyfile_requires_id :
    ntpd_config_files true none = ⟨[], some .PreconditionViolation⟩ := rfl

/-- C7: for every non-empty server address, `add_ntp_server` sends exactly
the one command `echo "server <address>" >> /etc/ntp.conf`, and for the
empty address it raises a precondition violation and sends nothing. -/
theorem c7_add_server (server : String) :
    (server ≠ "" → add_ntp_server server =
      ⟨["echo \"server " ++ server ++ "\" >> /etc/ntp.conf"], none⟩) ∧
    add_ntp_server "" = ⟨[], some .PreconditionViolation⟩ := by
  refine ⟨fun h => ?_, by decide⟩
  have he : server.isEmpty = false := by
    cases hb : server.isEmpty
    · rfl
    · exact absurd ((String.isEmpty_iff server).mp hb) h
  have hs : "echo \"server " ++ server ++ "\" >> " ++ CONFIG_FILE
      = "echo \"server " ++ server ++ "\" >> /etc/ntp.conf" := by
    rw [String.append_assoc]
    rfl
  simp [add_ntp_server, he, hs]

/-- C7 witness: the add-server command at the address `pool.ntp.org`. -/
theorem c7_add_server_witness :
    add_ntp_server "pool.ntp.org" =
      ⟨["echo \"server pool.ntp.org\" >> /etc/ntp.conf"], none⟩ :=
  (c7_add_server "pool.ntp.org").1 (by decide)

/-- C8: for every non-empty server address, `remove_ntp_server` sends
exactly the one command `sed -i '/<address>/d' /etc/ntp.conf`, and for the
empty address it raises a precondition violation and sends nothing. -/
theorem c8_remove_server (server : String) :
    (server ≠ "" → remove_ntp_server server =
      ⟨["sed -i '/" ++ server ++ "/d' /etc/ntp.conf"], none⟩) ∧
    remove_ntp_server "" = ⟨[], some .PreconditionViolation⟩ := by
  refine ⟨fun h => ?_, by decide⟩
  have he : server.isEmpty = false := by
    cases hb : server.isEmpty
    · rfl
    · exact absurd ((String.isEmpty_iff server).mp hb) h
  have hs : "sed -i '/" ++ server ++ "/d' " ++ CONFIG_FILE
      = "sed -i '/" ++ server ++ "/d' /etc/ntp.conf" := by
    rw [String.append_assoc]
    rfl
  simp [remove_ntp_server, he, hs]

/-- C8 witness: the remove-server command at the address `pool.ntp.org`. -/
theorem c8_remove_server_witness :
    remove_ntp_server "pool.ntp.org" =
      ⟨["sed -i '/pool.ntp.org/d' /etc/ntp.conf"], none⟩ :=
  (c8_remove_server "pool.ntp.org").1 (by decide)

/-- C9: with the key file disabled, the command `ntpd_config_files` sends
does not depend on the key id: any two calls with any two id values send
the same command list. -/
theorem c9_nokeyfile_id_independent (tk1 tk2 : Option Int) :
    (ntpd_config_files false tk1).sent = (ntpd_config_files false tk2).sent :=
  rfl

/-- C10: `add_trustedkey_password` does not validate the hash type: for
every in-range id, non-empty password and arbitrary type string (the empty
one included) it sends exactly
`echo "<id> <type> <password>" >> /etc/ntp.keys`. -/
theorem c10_type_not_validated (id : Int) (key type : String)
    (h : idInRange id) (hk : key ≠ "") :
    add_trustedkey_password id key type =
      ⟨["echo \"" ++ toString id ++ " " ++ type ++ " " ++ key
          ++ "\" >> /etc/ntp.keys"], none⟩ := by
  have he : key.isEmpty = false := by
    cases hb : key.isEmpty
    · rfl
    · exact absurd ((String.isEmpty_iff key).mp hb) hk
  have hs : "echo \"" ++ keyFileLine id type key ++ "\" >> " ++ KEYS_FILE
      = "echo \"" ++ toString id ++ " " ++ type ++ " " ++ key
          ++ "\" >> /etc/ntp.keys" := by
    simp only [keyFileLine, KEYS_FILE, String.append_assoc]
    rfl
  simp [add_trustedkey_password, h, he, hs]

/-- C10 witness: the empty hash type at id 3 and password `pw` yields the
malformed line `3  pw` with two consecutive spaces. -/
theorem c10_type_not_validated_witness :
    add_trustedkey_password 3 "pw" "" =
      ⟨["echo \"3  pw\" >> /etc/ntp.keys"], none⟩ :=
  c10_type_not_validated 3 "pw" "" (by decide) (by decide)

end Ntpd
